import Mathlib

/-!
Verification development for the prediction-ensemble core of src/index.js.

The JavaScript source is shallowly embedded below. Sessions are records,
pattern strings become lists of characters, JavaScript numbers become exact
rationals, and the two sources of randomness (the default coin flip of the
pattern model and the five synthetic ensemble voters) become explicit
parameters: a rational for the single Math.random call of model 1 and a
stream Nat to pairs of rationals for the per-iteration pair of Math.random
calls in the ensemble loop.
-/

/-- One completed game round, as consumed by the code: a numeric id, the
outcome label resultTruyenThong (the code compares it with the literal TAI),
and the auxiliary display fields dices and point. -/
structure Session where
  id : Int
  resultTruyenThong : String
  dices : List Nat
  point : Nat
deriving DecidableEq

/-- Output of one model, mirroring the vote objects of index.js. -/
structure ModelVote where
  prediction : Char
  confidence : ℚ
  explain : String

/-- Result object of ensemblePrediction in index.js. -/
structure EnsembleResult where
  du_doan : String
  do_tin_cay : String
  giai_thich : String

/-- Response object built by the /predict handler (success branch). -/
structure Output where
  session : Int
  dice : List Nat
  total : Nat
  result : String
  next_session : Int
  du_doan : String
  do_tin_cay : String
  giai_thich : String
  pattern : List Char
  ty_le : String × String
  id : String

/-- index.js line 12: result === TAI gives T, anything else gives X. -/
def getPatternChar (result : String) : Char :=
  if result = "TAI" then 'T' else 'X'

/-- The symbols of the sessions, in the order the session list is given. -/
def sessionChars (sessions : List Session) : List Char :=
  sessions.map (fun s => getPatternChar s.resultTruyenThong)

/-- index.js lines 16-19: map each session to its symbol, reverse, then
slice(0, Math.max(minCount, length)). Slice with an end at or beyond the
length returns the whole array, exactly as List.take does. The caller
passes minCount = 5 (the JavaScript default parameter). -/
def getRecentPatterns (sessions : List Session) (minCount : Nat) : List Char :=
  let patterns := (sessions.map (fun s => getPatternChar s.resultTruyenThong)).reverse
  patterns.take (max minCount patterns.length)

/-- Number of sessions whose result is TAI (index.js line 24). -/
def taiCount (sessions : List Session) : Nat :=
  (sessions.filter (fun s => s.resultTruyenThong = "TAI")).length

/-- The raw (unrounded) TAI percentage of index.js line 27. -/
def ratioTaiVal (sessions : List Session) : ℚ :=
  (taiCount sessions : ℚ) / (sessions.length : ℚ) * 100

/-- The raw (unrounded) XIU percentage of index.js line 28; the code uses
xiuCount = total - taiCount. -/
def ratioXiuVal (sessions : List Session) : ℚ :=
  ((sessions.length - taiCount sessions : Nat) : ℚ) / (sessions.length : ℚ) * 100

/-- Round to two decimal places: the numeric value denoted by the string
that JavaScript toFixed(2) produces. -/
def round2 (q : ℚ) : ℚ :=
  (round (q * 100) : ℚ) / 100

/-- Decimal rendering of a rational to exactly two fraction digits,
matching toFixed(2) on the values appearing in this program. -/
def ratToFixed2 (q : ℚ) : String :=
  let n : Int := round (q * 100)
  let sgn := if n < 0 then "-" else ""
  let m := n.natAbs
  let frac := m % 100
  sgn ++ toString (m / 100) ++ "." ++ (if frac < 10 then "0" ++ toString frac else toString frac)

/-- index.js lines 22-30: the two percentage strings (Tai, Xiu). -/
def calculateRatios (sessions : List Session) : String × String :=
  (ratToFixed2 (ratioTaiVal sessions) ++ "%", ratToFixed2 (ratioXiuVal sessions) ++ "%")

/-- Does needle occur at the head of hay? (String.prototype leading match.) -/
def leadMatch : List Char → List Char → Bool
  | [], _ => true
  | _ :: _, [] => false
  | a :: as, b :: bs => a = b && leadMatch as bs

/-- Does needle occur anywhere in hay? This is String.prototype.includes,
and also the unanchored regex test for a single fixed alternative. -/
def containsSeq (needle : List Char) : List Char → Bool
  | [] => leadMatch needle []
  | c :: rest => leadMatch needle (c :: rest) || containsSeq needle rest

/-- Is the list a concatenation of TX / XT blocks? The regex (TX|XT)+ with
both anchors matches exactly the nonempty such lists; the block
decomposition of a matching string is forced because every block has
length two. -/
def altBlocks : List Char → Bool
  | [] => true
  | 'T' :: 'X' :: rest => altBlocks rest
  | 'X' :: 'T' :: rest => altBlocks rest
  | _ => false

/-- The anchored regex test of index.js line 42: (TX|XT)+ needs at least
one block, so the empty string does not match. -/
def altOneOrMore (l : List Char) : Bool :=
  !l.isEmpty && altBlocks l

/-- index.js lines 35-53, model 1: streak / shape analysis of the pattern.
rand stands for the single Math.random() call of the default branch. The
two 3-1 needles are written exactly as in the source, space included. -/
def model1PatternAnalysis (pattern : List Char) (rand : ℚ) : ModelVote :=
  let lastFew := pattern.take 5
  if lastFew = ['T', 'T', 'T', 'T', 'T'] ∨ lastFew.take 4 = ['T', 'T', 'T', 'T'] then
    ⟨'T', 8/10, "Cầu bệt Tài dài, dự đoán tiếp tục Tài."⟩
  else if lastFew = ['X', 'X', 'X', 'X', 'X'] ∨ lastFew.take 4 = ['X', 'X', 'X', 'X'] then
    ⟨'X', 8/10, "Cầu bệt Xỉu dài, dự đoán tiếp tục Xỉu."⟩
  else if altOneOrMore lastFew then
    ⟨if lastFew.headD 'X' = 'T' then 'X' else 'T', 7/10, "Cầu 1-1 so le, dự đoán đảo chiều."⟩
  else if containsSeq ['T', 'T', 'X', 'X'] (pattern.take 8) || containsSeq ['X', 'X', 'T', 'T'] (pattern.take 8) then
    ⟨if lastFew.take 2 = ['T', 'T'] then 'X' else 'T', 75/100, "Cầu 2-2, dự đoán chuyển sang nhóm tiếp theo."⟩
  else if containsSeq ['T', 'T', 'T', ' ', 'X'] pattern then
    ⟨'T', 65/100, "Cầu 3-1 Tài, dự đoán quay lại Tài."⟩
  else if containsSeq ['X', 'X', 'X', ' ', 'T'] pattern then
    ⟨'X', 65/100, "Cầu 3-1 Xỉu, dự đoán quay lại Xỉu."⟩
  else
    ⟨if rand > 1/2 then 'T' else 'X', 5/10, "Không phát hiện mẫu rõ ràng, dự đoán ngẫu nhiên."⟩

/-- index.js lines 56-63, model 2: frequency over the 20 most recent
sessions. -/
def model2Probability (sessions : List Session) : ModelVote :=
  let recent20 := sessions.take 20
  let taiC := (recent20.filter (fun s => s.resultTruyenThong = "TAI")).length
  let ratio : ℚ := (taiC : ℚ) / (recent20.length : ℚ)
  if ratio > 7/10 then
    ⟨'X', 75/100, "Tài xuất hiện >70% gần đây, dự đoán Xỉu để cân bằng."⟩
  else if ratio < 3/10 then
    ⟨'T', 75/100, "Xỉu xuất hiện >70% gần đây, dự đoán Tài để cân bằng."⟩
  else
    ⟨if ratio > 1/2 then 'T' else 'X', 6/10, "Dựa trên tỷ lệ gần nhất, dự đoán theo bên chiếm ưu thế."⟩

/-- Count of adjacent positions (i-1, i) whose symbols are (a, b): the
transition table entry a + b of index.js lines 67-72, where the element at
the earlier index is the prev of the loop. -/
def adjacentPairCount (a b : Char) : List Char → Nat
  | x :: y :: rest => (if x = a ∧ y = b then 1 else 0) + adjacentPairCount a b (y :: rest)
  | _ => 0

/-- Transition count of the sessions list for the key a + b. -/
def transitionCount (sessions : List Session) (a b : Char) : Nat :=
  adjacentPairCount a b (sessionChars sessions)

/-- index.js lines 66-77, model 3: first-order Markov estimate. The
JavaScript expression count / totalFromLast || 0.5 evaluates to 0.5
exactly when the quotient is falsy: NaN (0/0, i.e. totalFromLast = 0) or
an exact 0 (count = 0 with totalFromLast nonzero); a positive quotient is
kept. -/
def model3Markov (sessions : List Session) : ModelVote :=
  let last := (sessionChars sessions).headD 'X'
  let cT := transitionCount sessions last 'T'
  let cX := transitionCount sessions last 'X'
  let totalFromLast := cT + cX
  let q : ℚ := (cT : ℚ) / (totalFromLast : ℚ)
  let pT : ℚ := if totalFromLast = 0 ∨ q = 0 then 1/2 else q
  ⟨if pT > 1/2 then 'T' else 'X',
   if pT > 1/2 then pT else 1 - pT,
   "Xác suất chuyển từ " ++ String.mk [last] ++ " sang T: " ++ ratToFixed2 pT ++
     ", dự đoán " ++ (if pT > 1/2 then "Tài" else "Xỉu") ++ "."⟩

/-- The scan of index.js lines 85-90: at every position i with
i < history.length - 4 (equivalently at least five symbols remaining),
compare the 4-window with the key and, on a match, tally the symbol that
follows. Returns (count of T continuations, count of X continuations). -/
def ngramScan (key : List Char) : List Char → Nat × Nat
  | [] => (0, 0)
  | c :: rest =>
    if 4 < (c :: rest).length then
      let tails := ngramScan key rest
      if (c :: rest).take 4 = key then
        (if (c :: rest).getD 4 'X' = 'T' then (tails.1 + 1, tails.2)
         else if (c :: rest).getD 4 'X' = 'X' then (tails.1, tails.2 + 1)
         else tails)
      else tails
    else (0, 0)

/-- index.js lines 80-95, model 4: 4-gram continuation frequency. The
history is the unreversed symbol list and lastN the first four pattern
characters. -/
def model4NGram (pattern : List Char) (sessions : List Session) : ModelVote :=
  let history := sessionChars sessions
  let lastN := pattern.take 4
  let counts := ngramScan lastN history
  let total := counts.1 + counts.2
  if total = 0 then
    ⟨'T', 5/10, "Không có mẫu khớp, dự đoán mặc định."⟩
  else
    let pT : ℚ := (counts.1 : ℚ) / (total : ℚ)
    ⟨if pT > 1/2 then 'T' else 'X',
     max pT (1 - pT),
     "Từ mẫu " ++ String.mk lastN ++ ", tiếp theo T: " ++ ratToFixed2 pT ++
       ", dự đoán " ++ (if pT > 1/2 then "Tài" else "Xỉu") ++ "."⟩

/-- Length of the leading run of one repeated symbol: the match length of
the regex ([TX])\1* anchored at the head (index.js line 100). On a head
that is neither T nor X the JavaScript match would be null; that case is
unreachable because patterns only hold T and X. -/
def headStreakLen (pattern : List Char) : Nat :=
  match pattern with
  | [] => 0
  | c :: rest => if c = 'T' ∨ c = 'X' then 1 + (rest.takeWhile (fun d => d = c)).length else 0

/-- index.js lines 98-104, model 5: heuristic rules. ratioTai is the
numeric value parseFloat reads back from the Tai percentage string, that
is the two-decimal rounding of the raw percentage. -/
def model5Heuristic (pattern : List Char) (ratioTai : ℚ) : ModelVote :=
  let last := pattern.headD 'X'
  let streak := headStreakLen pattern
  if streak ≥ 4 then
    ⟨if last = 'T' then 'X' else 'T', 7/10, "Chuỗi dài, dự đoán đảo chiều (gãy cầu)."⟩
  else if ratioTai > 60 then
    ⟨'X', 65/100, "Tỷ lệ Tài cao, dự đoán Xỉu."⟩
  else
    ⟨last, 6/10, "Theo xu hướng gần nhất."⟩

/-- The accumulators of the forEach loop of index.js lines 108-115 over a
list of votes, computed tail first: (votes.T, votes.X, totalConfidence).
A confidence only reaches votes.T or votes.X through a matching
prediction key, while totalConfidence sums every confidence; rational
addition is exact and commutative, so the accumulation order does not
change the three totals. -/
def tallyVotes : List ModelVote → ℚ × ℚ × ℚ
  | [] => (0, 0, 0)
  | m :: rest =>
    let acc := tallyVotes rest
    ((if m.prediction = 'T' then acc.1 + m.confidence else acc.1),
     (if m.prediction = 'X' then acc.2.1 + m.confidence else acc.2.1),
     acc.2.2 + m.confidence)

/-- The five synthetic voters of index.js lines 117-123. Iteration i draws
two Math.random values (randSrc i).1 and (randSrc i).2: the first picks
the prediction, the second sets the confidence 0.6 + r * 0.2. -/
def syntheticVotes (randSrc : Nat → ℚ × ℚ) : List ModelVote :=
  (List.range 5).map (fun i =>
    let pred := if (randSrc i).1 > 1/2 then 'T' else 'X'
    let conf : ℚ := 6/10 + (randSrc i).2 * (2/10)
    ⟨pred, conf,
     "AI bổ sung " ++ toString (i + 1) ++ ": Dự đoán " ++
       (if pred = 'T' then "Tài" else "Xỉu") ++ " với độ tin cậy " ++ ratToFixed2 conf ++ "."⟩)

/-- The three accumulators after processing the five model votes and the
five synthetic voters. -/
def ensembleVotes (models : List ModelVote) (randSrc : Nat → ℚ × ℚ) : ℚ × ℚ × ℚ :=
  tallyVotes (models ++ syntheticVotes randSrc)

/-- The numeric value of the final confidence percentage string of
index.js line 125: max(votes.T, votes.X) / totalConfidence * 100 rounded
to two decimals by toFixed(2). -/
def ensembleConfVal (models : List ModelVote) (randSrc : Nat → ℚ × ℚ) : ℚ :=
  let v := ensembleVotes models randSrc
  round2 (max v.1 v.2.1 / v.2.2 * 100)

/-- index.js lines 107-128: the ensemble aggregation. The confidence
string renders the same digits toFixed(2) produces, via the rounded value
ensembleConfVal. -/
def ensemblePrediction (models : List ModelVote) (randSrc : Nat → ℚ × ℚ) : EnsembleResult :=
  let v := ensembleVotes models randSrc
  let explains := (models ++ syntheticVotes randSrc).map (fun m => m.explain)
  let prediction := if v.1 > v.2.1 then "TAI" else "XIU"
  ⟨prediction,
   ratToFixed2 (ensembleConfVal models randSrc) ++ "%",
   "GIẢI THÍCH AI TỔNG HỢP: Phân tích từ 10 AI (5 model chính + 5 bổ sung). Mẫu cầu gần nhất: " ++
     String.intercalate (" | ") explains ++ " Kết quả chính: " ++ prediction ++
     " dựa trên phiếu bầu và trọng số."⟩

/-- Insertion step used to model the descending sort by id of index.js
line 136 (comparator (a, b) => b.id - a.id, stable). -/
def insertByIdDesc (s : Session) : List Session → List Session
  | [] => [s]
  | t :: ts => if t.id ≤ s.id then s :: t :: ts else t :: insertByIdDesc s ts

/-- Stable sort of the session list by descending id. -/
def sortByIdDesc : List Session → List Session
  | [] => []
  | s :: rest => insertByIdDesc s (sortByIdDesc rest)

/-- The five model votes exactly as the handler builds them in index.js
lines 148-152, from an already sorted session list. -/
def pipelineModels (sessions : List Session) (rand : ℚ) : List ModelVote :=
  let patternStr := getRecentPatterns sessions 5
  [model1PatternAnalysis patternStr rand,
   model2Probability sessions,
   model3Markov sessions,
   model4NGram patternStr sessions,
   model5Heuristic patternStr (round2 (ratioTaiVal sessions))]

/-- The /predict handler of index.js lines 131-175, with the network fetch
abstracted into the raw session list argument. It sorts descending by id,
answers the error object when no sessions exist, and otherwise assembles
the success response from the latest session, the pattern, the ratios and
the ensemble result. -/
def predictHandler (raw : List Session) (rand : ℚ) (randSrc : Nat → ℚ × ℚ) : Except String Output :=
  let sessions := sortByIdDesc raw
  if sessions.length = 0 then
    Except.error ("No sessions found")
  else
    let latest := sessions.headD ⟨0, "", [], 0⟩
    let patternStr := getRecentPatterns sessions 5
    let ratios := calculateRatios sessions
    let r := ensemblePrediction (pipelineModels sessions rand) randSrc
    Except.ok ⟨latest.id, latest.dices, latest.point, latest.resultTruyenThong, latest.id + 1,
      r.du_doan, r.do_tin_cay, r.giai_thich, patternStr, ratios, "Việt Anh Bá Sàn Tool"⟩

/-- The transition probability exactly as the specification states it:
p(T given last) = count(last to T) / (count(last to T) + count(last to X)).
This is the spec-side reference value compared against model3Markov. -/
def markovSpecP (sessions : List Session) : ℚ :=
  let last := (sessionChars sessions).headD 'X'
  let cT := transitionCount sessions last 'T'
  let cX := transitionCount sessions last 'X'
  (cT : ℚ) / ((cT : ℚ) + (cX : ℚ))

/-- Concrete session histories used by witnesses and counterexamples. -/
def demoSessions : List Session := [⟨1, "TAI", [], 0⟩]

/-- Two sessions, latest first, latest TAI then XIU: the unique transition
out of T goes to X. -/
def demoTX : List Session := [⟨2, "TAI", [], 0⟩, ⟨1, "XIU", [], 0⟩]

/-- Two sessions, latest first, both TAI: the unique transition out of T
goes to T. -/
def demoTT : List Session := [⟨2, "TAI", [], 0⟩, ⟨1, "TAI", [], 0⟩]

/-- Unsorted input exercising the sort of the handler. -/
def c1Sessions : List Session := [⟨1, "XIU", [], 0⟩, ⟨2, "TAI", [], 0⟩]

/-- A fixed random stream for witnesses. -/
def demoSrc : Nat → ℚ × ℚ := fun _ => (3/10, 3/10)

/-- Concrete votes for the aggregation witness. -/
def demoVotes : List ModelVote := [⟨'T', 7/10, "m1"⟩, ⟨'X', 6/10, "m2"⟩]

/-! ## Helper lemmas -/

theorem getPatternChar_TX (r : String) : getPatternChar r = 'T' ∨ getPatternChar r = 'X' := by
  unfold getPatternChar
  split_ifs <;> simp

theorem getRecentPatterns_eq (s : List Session) (m : Nat) :
    getRecentPatterns s m = (sessionChars s).reverse := by
  unfold getRecentPatterns sessionChars
  exact List.take_of_length_le (le_max_right _ _)

theorem getRecentPatterns_length (s : List Session) (m : Nat) :
    (getRecentPatterns s m).length = s.length := by
  rw [getRecentPatterns_eq]
  simp [sessionChars]

theorem mem_getRecentPatterns_TX (s : List Session) (m : Nat) (c : Char)
    (h : c ∈ getRecentPatterns s m) : c = 'T' ∨ c = 'X' := by
  rw [getRecentPatterns_eq] at h
  simp only [sessionChars, List.mem_reverse, List.mem_map] at h
  obtain ⟨a, _, hc⟩ := h
  rw [← hc]
  exact getPatternChar_TX _

theorem headD_pattern_TX (s : List Session) (m : Nat) :
    (getRecentPatterns s m).headD 'X' = 'T' ∨ (getRecentPatterns s m).headD 'X' = 'X' := by
  cases hp : getRecentPatterns s m with
  | nil => right; rfl
  | cons c rest =>
    have hc : c ∈ getRecentPatterns s m := by rw [hp]; exact List.mem_cons_self c rest
    simpa using mem_getRecentPatterns_TX s m c hc

theorem round2_nonneg (q : ℚ) (h : 0 ≤ q) : 0 ≤ round2 q := by
  unfold round2
  apply div_nonneg _ (by norm_num)
  have hz : (0 : ℤ) ≤ round (q * 100) := by
    rw [round_eq]
    apply Int.le_floor.mpr
    push_cast
    linarith
  exact_mod_cast hz

theorem round2_le_100 (q : ℚ) (h : q ≤ 100) : round2 q ≤ 100 := by
  unfold round2
  rw [div_le_iff₀ (by norm_num : (0:ℚ) < 100)]
  have hz : round (q * 100) ≤ 10000 := by
    rw [round_eq]
    have hlt : ⌊q * 100 + 1/2⌋ < 10001 := Int.floor_lt.mpr (by push_cast; linarith)
    omega
  calc ((round (q * 100) : ℤ) : ℚ) ≤ ((10000 : ℤ) : ℚ) := by exact_mod_cast hz
    _ = 100 * 100 := by norm_num

theorem abs_round2_sub (q : ℚ) : |round2 q - q| ≤ 1/200 := by
  have hkey : round2 q - q = (((round (q * 100) : ℤ) : ℚ) - q * 100) / 100 := by
    unfold round2
    ring
  rw [hkey, abs_div, abs_of_pos (show (0:ℚ) < 100 by norm_num), abs_sub_comm]
  have h := abs_sub_round (q * 100)
  linarith

theorem tallyVotes_eq (l : List ModelVote) :
    tallyVotes l
      = (((l.filter (fun m => m.prediction = 'T')).map (fun m => m.confidence)).sum,
         ((l.filter (fun m => m.prediction = 'X')).map (fun m => m.confidence)).sum,
         (l.map (fun m => m.confidence)).sum) := by
  induction l with
  | nil => rfl
  | cons m rest ih =>
    simp only [tallyVotes, ih, List.filter_cons, List.map_cons, List.sum_cons]
    by_cases hT : m.prediction = 'T'
    · have hX : ¬ m.prediction = 'X' := by rw [hT]; decide
      simp [hT, hX, add_comm]
    · by_cases hX : m.prediction = 'X'
      · simp [hT, hX, add_comm]
      · simp [hT, hX, add_comm]

theorem tallyVotes_bounds (l : List ModelVote) (h : ∀ m ∈ l, 0 ≤ m.confidence) :
    0 ≤ (tallyVotes l).1 ∧ 0 ≤ (tallyVotes l).2.1
      ∧ (tallyVotes l).1 + (tallyVotes l).2.1 ≤ (tallyVotes l).2.2 := by
  induction l with
  | nil => norm_num [tallyVotes]
  | cons m rest ih =>
    have hm := h m (List.mem_cons_self m rest)
    obtain ⟨h1, h2, h3⟩ := ih (fun x hx => h x (List.mem_cons_of_mem m hx))
    simp only [tallyVotes]
    by_cases hT : m.prediction = 'T'
    · have hX : ¬ m.prediction = 'X' := by rw [hT]; decide
      rw [if_pos hT, if_neg hX]
      exact ⟨by linarith, by linarith, by linarith⟩
    · by_cases hX : m.prediction = 'X'
      · rw [if_neg hT, if_pos hX]
        exact ⟨by linarith, by linarith, by linarith⟩
      · rw [if_neg hT, if_neg hX]
        exact ⟨by linarith, by linarith, by linarith⟩

theorem insertByIdDesc_length (s : Session) (l : List Session) :
    (insertByIdDesc s l).length = l.length + 1 := by
  induction l with
  | nil => rfl
  | cons t ts ih =>
    unfold insertByIdDesc
    split_ifs <;> simp [ih]

theorem sortByIdDesc_length (l : List Session) : (sortByIdDesc l).length = l.length := by
  induction l with
  | nil => rfl
  | cons s rest ih =>
    unfold sortByIdDesc
    rw [insertByIdDesc_length, ih, List.length_cons]

/-- The prediction-confidence pair shape shared by models 3 and 4 in the
non-degenerate path. -/
theorem vote_if_inv (p : ℚ) (h0 : 0 ≤ p) (h1 : p ≤ 1) :
    ((if p > 1/2 then 'T' else 'X') = 'T' ∨ (if p > 1/2 then 'T' else 'X') = 'X')
    ∧ 1/2 ≤ (if p > 1/2 then p else 1 - p) ∧ (if p > 1/2 then p else 1 - p) ≤ 1 := by
  split_ifs with h
  · exact ⟨Or.inl rfl, by linarith, by linarith⟩
  · exact ⟨Or.inr rfl, by linarith, by linarith⟩

theorem max_p_inv (p : ℚ) (h0 : 0 ≤ p) (h1 : p ≤ 1) :
    1/2 ≤ max p (1 - p) ∧ max p (1 - p) ≤ 1 := by
  constructor
  · rcases le_or_lt p (1/2) with h | h
    · exact le_trans (by linarith) (le_max_right _ _)
    · exact le_trans (le_of_lt h) (le_max_left _ _)
  · exact max_le h1 (by linarith)

theorem model1_inv (pattern : List Char) (rand : ℚ) :
    ((model1PatternAnalysis pattern rand).prediction = 'T'
      ∨ (model1PatternAnalysis pattern rand).prediction = 'X')
    ∧ 1/2 ≤ (model1PatternAnalysis pattern rand).confidence
    ∧ (model1PatternAnalysis pattern rand).confidence ≤ 1 := by
  unfold model1PatternAnalysis
  dsimp only
  split
  · exact ⟨Or.inl rfl, by norm_num, by norm_num⟩
  · split
    · exact ⟨Or.inr rfl, by norm_num, by norm_num⟩
    · split
      · exact ⟨by split <;> simp, by norm_num, by norm_num⟩
      · split
        · exact ⟨by split <;> simp, by norm_num, by norm_num⟩
        · split
          · exact ⟨Or.inl rfl, by norm_num, by norm_num⟩
          · split
            · exact ⟨Or.inr rfl, by norm_num, by norm_num⟩
            · exact ⟨by split <;> simp, by norm_num, by norm_num⟩

theorem model2_inv (sessions : List Session) :
    ((model2Probability sessions).prediction = 'T' ∨ (model2Probability sessions).prediction = 'X')
    ∧ 1/2 ≤ (model2Probability sessions).confidence
    ∧ (model2Probability sessions).confidence ≤ 1 := by
  unfold model2Probability
  dsimp only
  split
  · exact ⟨Or.inr rfl, by norm_num, by norm_num⟩
  · split
    · exact ⟨Or.inl rfl, by norm_num, by norm_num⟩
    · exact ⟨by split <;> simp, by norm_num, by norm_num⟩

theorem model3_inv (sessions : List Session) :
    ((model3Markov sessions).prediction = 'T' ∨ (model3Markov sessions).prediction = 'X')
    ∧ 1/2 ≤ (model3Markov sessions).confidence
    ∧ (model3Markov sessions).confidence ≤ 1 := by
  unfold model3Markov
  dsimp only
  refine vote_if_inv _ ?_ ?_
  · split
    · norm_num
    · positivity
  · split
    · norm_num
    · rename_i hcond
      push_neg at hcond
      have hden : (0:ℚ) < ((transitionCount sessions ((sessionChars sessions).headD 'X') 'T'
          + transitionCount sessions ((sessionChars sessions).headD 'X') 'X' : Nat) : ℚ) :=
        Nat.cast_pos.mpr (Nat.pos_of_ne_zero hcond.1)
      rw [div_le_one hden]
      exact_mod_cast Nat.le_add_right _ _

theorem model4_inv (pattern : List Char) (sessions : List Session) :
    ((model4NGram pattern sessions).prediction = 'T'
      ∨ (model4NGram pattern sessions).prediction = 'X')
    ∧ 1/2 ≤ (model4NGram pattern sessions).confidence
    ∧ (model4NGram pattern sessions).confidence ≤ 1 := by
  unfold model4NGram
  dsimp only
  split
  · exact ⟨Or.inl rfl, by norm_num, by norm_num⟩
  · rename_i htot
    have hden : (0:ℚ) < (((ngramScan (pattern.take 4) (sessionChars sessions)).1
        + (ngramScan (pattern.take 4) (sessionChars sessions)).2 : Nat) : ℚ) :=
      Nat.cast_pos.mpr (Nat.pos_of_ne_zero htot)
    have h0 : (0:ℚ) ≤ ((ngramScan (pattern.take 4) (sessionChars sessions)).1 : ℚ)
        / (((ngramScan (pattern.take 4) (sessionChars sessions)).1
        + (ngramScan (pattern.take 4) (sessionChars sessions)).2 : Nat) : ℚ) := by positivity
    have h1 : ((ngramScan (pattern.take 4) (sessionChars sessions)).1 : ℚ)
        / (((ngramScan (pattern.take 4) (sessionChars sessions)).1
        + (ngramScan (pattern.take 4) (sessionChars sessions)).2 : Nat) : ℚ) ≤ 1 := by
      rw [div_le_one hden]
      exact_mod_cast Nat.le_add_right _ _
    exact ⟨by split <;> simp, (max_p_inv _ h0 h1).1, (max_p_inv _ h0 h1).2⟩

theorem model5_inv (pattern : List Char) (ratioTai : ℚ)
    (h : pattern.headD 'X' = 'T' ∨ pattern.headD 'X' = 'X') :
    ((model5Heuristic pattern ratioTai).prediction = 'T'
      ∨ (model5Heuristic pattern ratioTai).prediction = 'X')
    ∧ 1/2 ≤ (model5Heuristic pattern ratioTai).confidence
    ∧ (model5Heuristic pattern ratioTai).confidence ≤ 1 := by
  unfold model5Heuristic
  dsimp only
  split
  · exact ⟨by split <;> simp, by norm_num, by norm_num⟩
  · split
    · exact ⟨Or.inr rfl, by norm_num, by norm_num⟩
    · exact ⟨h, by norm_num, by norm_num⟩

/-- Every synthetic voter confidence is nonnegative when its random draw
is. -/
theorem syntheticVotes_conf_nonneg (randSrc : Nat → ℚ × ℚ)
    (hr : ∀ i, 0 ≤ (randSrc i).2) :
    ∀ m ∈ syntheticVotes randSrc, 0 ≤ m.confidence := by
  intro m hm
  simp only [syntheticVotes, List.mem_map, List.mem_range] at hm
  obtain ⟨i, _, rfl⟩ := hm
  dsimp only
  have h1 : (0:ℚ) ≤ (randSrc i).2 * (2/10) :=
    mul_nonneg (hr i) (by norm_num)
  linarith

/-- Every confidence in the pipeline list is at least one half. -/
theorem pipelineModels_conf_ge (sessions : List Session) (rand : ℚ) :
    ∀ m ∈ pipelineModels sessions rand, 1/2 ≤ m.confidence := by
  intro m hm
  simp only [pipelineModels, List.mem_cons, List.not_mem_nil, or_false] at hm
  rcases hm with rfl | rfl | rfl | rfl | rfl
  · exact (model1_inv _ _).2.1
  · exact (model2_inv _).2.1
  · exact (model3_inv _).2.1
  · exact (model4_inv _ _).2.1
  · exact (model5_inv _ _ (headD_pattern_TX _ _)).2.1

/-- Bounds on the rounded ensemble confidence percentage for the model
list the handler constructs, for any random stream with draws at or above
zero. -/
theorem ensembleConfVal_bounds (sessions : List Session) (rand : ℚ)
    (randSrc : Nat → ℚ × ℚ) (hr : ∀ i, 0 ≤ (randSrc i).2) :
    0 ≤ ensembleConfVal (pipelineModels sessions rand) randSrc
    ∧ ensembleConfVal (pipelineModels sessions rand) randSrc ≤ 100 := by
  have hconf : ∀ m ∈ pipelineModels sessions rand ++ syntheticVotes randSrc, 0 ≤ m.confidence := by
    intro m hm
    rcases List.mem_append.mp hm with hm | hm
    · linarith [pipelineModels_conf_ge sessions rand m hm]
    · exact syntheticVotes_conf_nonneg randSrc hr m hm
  obtain ⟨hvT, hvX, hle⟩ := tallyVotes_bounds _ hconf
  have hsum : (tallyVotes (pipelineModels sessions rand ++ syntheticVotes randSrc)).2.2
      = ((pipelineModels sessions rand).map (fun m => m.confidence)).sum
        + ((syntheticVotes randSrc).map (fun m => m.confidence)).sum := by
    rw [tallyVotes_eq]
    dsimp only
    rw [List.map_append, List.sum_append]
  have hmodels : (5:ℚ)/2 ≤ ((pipelineModels sessions rand).map (fun m => m.confidence)).sum := by
    simp only [pipelineModels, List.map_cons, List.map_nil, List.sum_cons, List.sum_nil]
    have h1 := (model1_inv (getRecentPatterns sessions 5) rand).2.1
    have h2 := (model2_inv sessions).2.1
    have h3 := (model3_inv sessions).2.1
    have h4 := (model4_inv (getRecentPatterns sessions 5) sessions).2.1
    have h5 := (model5_inv (getRecentPatterns sessions 5) (round2 (ratioTaiVal sessions))
      (headD_pattern_TX sessions 5)).2.1
    linarith
  have hsynth : 0 ≤ ((syntheticVotes randSrc).map (fun m => m.confidence)).sum := by
    apply List.sum_nonneg
    intro x hx
    simp only [List.mem_map] at hx
    obtain ⟨m, hm, rfl⟩ := hx
    exact syntheticVotes_conf_nonneg randSrc hr m hm
  have htot : (5:ℚ)/2 ≤ (tallyVotes (pipelineModels sessions rand ++ syntheticVotes randSrc)).2.2 := by
    rw [hsum]
    linarith
  have htotpos : (0:ℚ) < (tallyVotes (pipelineModels sessions rand ++ syntheticVotes randSrc)).2.2 := by
    linarith
  have hmax : max (tallyVotes (pipelineModels sessions rand ++ syntheticVotes randSrc)).1
      (tallyVotes (pipelineModels sessions rand ++ syntheticVotes randSrc)).2.1
      ≤ (tallyVotes (pipelineModels sessions rand ++ syntheticVotes randSrc)).2.2 :=
    max_le (by linarith) (by linarith)
  have hmax0 : (0:ℚ) ≤ max (tallyVotes (pipelineModels sessions rand ++ syntheticVotes randSrc)).1
      (tallyVotes (pipelineModels sessions rand ++ syntheticVotes randSrc)).2.1 :=
    le_max_of_le_left hvT
  have hraw0 : (0:ℚ) ≤ max (tallyVotes (pipelineModels sessions rand ++ syntheticVotes randSrc)).1
      (tallyVotes (pipelineModels sessions rand ++ syntheticVotes randSrc)).2.1
      / (tallyVotes (pipelineModels sessions rand ++ syntheticVotes randSrc)).2.2 * 100 := by
    have := div_nonneg hmax0 (le_of_lt htotpos)
    linarith
  have hraw1 : max (tallyVotes (pipelineModels sessions rand ++ syntheticVotes randSrc)).1
      (tallyVotes (pipelineModels sessions rand ++ syntheticVotes randSrc)).2.1
      / (tallyVotes (pipelineModels sessions rand ++ syntheticVotes randSrc)).2.2 * 100 ≤ 100 := by
    have hq : max (tallyVotes (pipelineModels sessions rand ++ syntheticVotes randSrc)).1
        (tallyVotes (pipelineModels sessions rand ++ syntheticVotes randSrc)).2.1
        / (tallyVotes (pipelineModels sessions rand ++ syntheticVotes randSrc)).2.2 ≤ 1 :=
      (div_le_one htotpos).mpr hmax
    linarith
  unfold ensembleConfVal ensembleVotes
  dsimp only
  exact ⟨round2_nonneg _ hraw0, round2_le_100 _ hraw1⟩

/-- The final prediction string is always one of the two labels. -/
theorem ensemble_du_doan_cases (models : List ModelVote) (randSrc : Nat → ℚ × ℚ) :
    (ensemblePrediction models randSrc).du_doan = "TAI"
    ∨ (ensemblePrediction models randSrc).du_doan = "XIU" := by
  unfold ensemblePrediction
  dsimp only
  split
  · exact Or.inl rfl
  · exact Or.inr rfl

/-! ## Claim theorems -/

/-- Claim C1. The pattern length does equal the session count, but the
head of the derived pattern is the symbol of the session with the minimum
id, not the maximum: the handler sorts descending (latest first) and
getRecentPatterns then reverses that order again. On the two-session input
with ids 1 (XIU) and 2 (TAI), the sorted list starts with id 2 whose
symbol is T, yet the derived pattern is X then T, so pattern head is X. -/
theorem pattern_head_divergence :
    (getRecentPatterns (sortByIdDesc c1Sessions) 5).length = c1Sessions.length
    ∧ getRecentPatterns (sortByIdDesc c1Sessions) 5 = ['X', 'T']
    ∧ ((sortByIdDesc c1Sessions).headD ⟨0, "", [], 0⟩).id = 2
    ∧ getPatternChar (((sortByIdDesc c1Sessions).headD ⟨0, "", [], 0⟩).resultTruyenThong) = 'T'
    ∧ (getRecentPatterns (sortByIdDesc c1Sessions) 5).headD 'T' = 'X' := by
  decide

/-- Claim C4. A five-character strictly alternating head (TXTXT or XTXTX)
never fires the alternation rule, because the anchored regex (TX|XT)+ only
matches even-length strings: on both heads the model falls through to the
random default with confidence 0.5 instead of answering the claimed
reversal vote with confidence 0.7, whatever the random draw is. -/
theorem alternation_head_no_fire (r : ℚ) :
    (model1PatternAnalysis ['T', 'X', 'T', 'X', 'T'] r).confidence = 1/2
    ∧ (model1PatternAnalysis ['X', 'T', 'X', 'T', 'X'] r).confidence = 1/2 := by
  constructor <;> (unfold model1PatternAnalysis; simp +decide; norm_num)

/-- Claim C5. A literal 4-run followed by the opposite symbol never fires
the 3-1 rule, because the needles of the code contain a space (TTT X and
XXX T) which cannot occur in a pattern: on XTTTTX (and symmetrically on
TXXXXT) no earlier rule matches either, so the model returns the random
default with confidence 0.5 instead of the claimed reversion vote with
confidence 0.65, whatever the random draw is. -/
theorem three_one_shape_no_fire (r : ℚ) :
    (model1PatternAnalysis ['X', 'T', 'T', 'T', 'T', 'X'] r).confidence = 1/2
    ∧ (model1PatternAnalysis ['T', 'X', 'X', 'X', 'X', 'T'] r).confidence = 1/2 := by
  constructor <;> (unfold model1PatternAnalysis; simp +decide; norm_num)

/-- Claim C7. With zero sessions the handler answers the error object
before any model runs: for every random input the result is the error
value and no prediction output is produced. -/
theorem empty_history_error (rand : ℚ) (randSrc : Nat → ℚ × ℚ) :
    predictHandler [] rand randSrc = Except.error ("No sessions found") := rfl

/-- Claim C9. With the random source fixed, predict is a pure function of
the session history and the random draws: equal inputs give equal outputs,
including the full explanation text byte for byte. -/
theorem predict_deterministic (s1 s2 : List Session) (r1 r2 : ℚ)
    (g1 g2 : Nat → ℚ × ℚ) (hs : s1 = s2) (hr : r1 = r2) (hg : g1 = g2) :
    predictHandler s1 r1 g1 = predictHandler s2 r2 g2 := by
  subst hs
  subst hr
  subst hg
  rfl

/-- Witness for C9 at a concrete input. -/
theorem predict_deterministic_witness :
    demoSessions = demoSessions
    ∧ predictHandler demoSessions (3/10) demoSrc = predictHandler demoSessions (3/10) demoSrc :=
  ⟨rfl, predict_deterministic demoSessions demoSessions (3/10) (3/10) demoSrc demoSrc rfl rfl rfl⟩

/-- Counterexample for claim C3 as stated. On demoTX (latest TAI, then
XIU) there is one observed transition out of the most recent symbol T, so
the claimed fallback condition (zero denominator) does not hold, and the
claim demands confidence max(p, 1-p) = max(0, 1) = 1; the code instead
hits the JavaScript || fallback (the quotient is an exact 0, which is
falsy) and reports confidence 0.5. -/
theorem markov_fallback_cex :
    transitionCount demoTX ((sessionChars demoTX).headD 'X') 'T'
      + transitionCount demoTX ((sessionChars demoTX).headD 'X') 'X' ≠ 0
    ∧ (model3Markov demoTX).confidence = 1/2
    ∧ (model3Markov demoTX).confidence
        ≠ max (markovSpecP demoTX) (1 - markovSpecP demoTX) := by
  have hT : transitionCount demoTX ((sessionChars demoTX).headD 'X') 'T' = 0 := by decide
  have hX : transitionCount demoTX ((sessionChars demoTX).headD 'X') 'X' = 1 := by decide
  have hconf : (model3Markov demoTX).confidence = 1/2 := by
    unfold model3Markov
    dsimp only
    rw [hT, hX]
    rw [if_pos (Or.inr (by push_cast; norm_num))]
    rw [if_neg (by norm_num)]
    norm_num
  have hp : markovSpecP demoTX = 0 := by
    unfold markovSpecP
    dsimp only
    rw [hT, hX]
    norm_num
  refine ⟨by omega, hconf, ?_⟩
  rw [hconf, hp]
  rw [max_eq_right (by norm_num : (0:ℚ) ≤ 1 - 0)]
  norm_num

/-- Claim C3, amended. The fallback p = 0.5 fires whenever the count of
transitions last to T is zero - including, but not only, the
zero-denominator case - because the JavaScript || guard also catches an
exact-zero quotient. Whenever that count is nonzero the model computes
p = count(last to T) / (count(last to T) + count(last to X)), predicts T
exactly when p exceeds 0.5 and X otherwise, and reports confidence
max(p, 1 - p); in the fallback case it predicts X with confidence 0.5. -/
theorem markov_transition_spec (sessions : List Session) :
    (transitionCount sessions ((sessionChars sessions).headD 'X') 'T' ≠ 0 →
      (model3Markov sessions).prediction = (if markovSpecP sessions > 1/2 then 'T' else 'X')
      ∧ (model3Markov sessions).confidence
          = max (markovSpecP sessions) (1 - markovSpecP sessions))
    ∧ (transitionCount sessions ((sessionChars sessions).headD 'X') 'T' = 0 →
      (model3Markov sessions).prediction = 'X'
      ∧ (model3Markov sessions).confidence = 1/2) := by
  constructor
  · intro hcT
    have hden : transitionCount sessions ((sessionChars sessions).headD 'X') 'T'
        + transitionCount sessions ((sessionChars sessions).headD 'X') 'X' ≠ 0 := by omega
    have hqne : ((transitionCount sessions ((sessionChars sessions).headD 'X') 'T' : Nat) : ℚ)
        / (((transitionCount sessions ((sessionChars sessions).headD 'X') 'T'
          + transitionCount sessions ((sessionChars sessions).headD 'X') 'X' : Nat)) : ℚ) ≠ 0 :=
      div_ne_zero (Nat.cast_ne_zero.mpr hcT) (Nat.cast_ne_zero.mpr hden)
    have hqp : ((transitionCount sessions ((sessionChars sessions).headD 'X') 'T' : Nat) : ℚ)
        / (((transitionCount sessions ((sessionChars sessions).headD 'X') 'T'
          + transitionCount sessions ((sessionChars sessions).headD 'X') 'X' : Nat)) : ℚ)
        = markovSpecP sessions := by
      unfold markovSpecP
      push_cast
      ring
    unfold model3Markov
    dsimp only
    rw [if_neg (not_or.mpr ⟨hden, hqne⟩), hqp]
    constructor
    · rfl
    · show (if markovSpecP sessions > 1/2 then markovSpecP sessions else 1 - markovSpecP sessions)
        = max (markovSpecP sessions) (1 - markovSpecP sessions)
      split_ifs with h
      · exact (max_eq_left (by linarith)).symm
      · exact (max_eq_right (by linarith)).symm
  · intro hcT
    unfold model3Markov
    dsimp only
    have hq0 : ((transitionCount sessions ((sessionChars sessions).headD 'X') 'T' : Nat) : ℚ)
        / (((transitionCount sessions ((sessionChars sessions).headD 'X') 'T'
          + transitionCount sessions ((sessionChars sessions).headD 'X') 'X' : Nat)) : ℚ) = 0 := by
      rw [show ((transitionCount sessions ((sessionChars sessions).headD 'X') 'T' : Nat) : ℚ) = 0
        from by exact_mod_cast hcT]
      exact zero_div _
    rw [if_pos (Or.inr hq0)]
    constructor
    · show (if (1:ℚ)/2 > 1/2 then 'T' else 'X') = 'X'
      rw [if_neg (by norm_num)]
    · show (if (1:ℚ)/2 > 1/2 then (1:ℚ)/2 else 1 - 1/2) = 1/2
      rw [if_neg (by norm_num)]
      norm_num

/-- Witness for the amended C3 on demoTT, where the single transition out
of T goes to T: p = 1, prediction T, confidence 1. -/
theorem markov_transition_spec_witness :
    transitionCount demoTT ((sessionChars demoTT).headD 'X') 'T' ≠ 0
    ∧ ((model3Markov demoTT).prediction = (if markovSpecP demoTT > 1/2 then 'T' else 'X')
      ∧ (model3Markov demoTT).confidence
          = max (markovSpecP demoTT) (1 - markovSpecP demoTT)) :=
  ⟨by decide, (markov_transition_spec demoTT).1 (by decide)⟩

/-- Claim C8. The two independently rounded percentages over the whole
session set sum to a value within the rounding tolerance around 100. -/
theorem ratios_sum_tolerance (sessions : List Session) (h : sessions ≠ []) :
    9999/100 ≤ round2 (ratioTaiVal sessions) + round2 (ratioXiuVal sessions)
    ∧ round2 (ratioTaiVal sessions) + round2 (ratioXiuVal sessions) ≤ 10001/100 := by
  have hlen : (0:ℚ) < (sessions.length : ℚ) := by
    have hpos := List.length_pos.mpr h
    exact_mod_cast hpos
  have hne : (sessions.length : ℚ) ≠ 0 := ne_of_gt hlen
  have hle : taiCount sessions ≤ sessions.length := List.length_filter_le _ _
  have hsum : ratioTaiVal sessions + ratioXiuVal sessions = 100 := by
    unfold ratioTaiVal ratioXiuVal
    rw [Nat.cast_sub hle]
    field_simp
    ring
  have h1 := abs_round2_sub (ratioTaiVal sessions)
  have h2 := abs_round2_sub (ratioXiuVal sessions)
  rw [abs_le] at h1 h2
  constructor <;> linarith [h1.1, h1.2, h2.1, h2.2]

/-- Witness for C8 on a one-session history: 100.00 plus 0.00. -/
theorem ratios_sum_tolerance_witness :
    demoSessions ≠ []
    ∧ (9999/100 ≤ round2 (ratioTaiVal demoSessions) + round2 (ratioXiuVal demoSessions)
      ∧ round2 (ratioTaiVal demoSessions) + round2 (ratioXiuVal demoSessions) ≤ 10001/100) :=
  ⟨by simp [demoSessions], ratios_sum_tolerance demoSessions (by simp [demoSessions])⟩

/-- Claim C10. Every one of the five pipeline model votes has a T or X
prediction and a confidence between one half and one, whatever the random
draw of model 1 is. -/
theorem model_votes_invariant (sessions : List Session) (h : sessions ≠ []) (rand : ℚ) :
    ∀ m ∈ pipelineModels sessions rand,
      (m.prediction = 'T' ∨ m.prediction = 'X') ∧ 1/2 ≤ m.confidence ∧ m.confidence ≤ 1 := by
  intro m hm
  simp only [pipelineModels, List.mem_cons, List.not_mem_nil, or_false] at hm
  rcases hm with rfl | rfl | rfl | rfl | rfl
  · exact model1_inv _ _
  · exact model2_inv _
  · exact model3_inv _
  · exact model4_inv _ _
  · exact model5_inv _ _ (headD_pattern_TX _ _)

/-- Witness for C10 at a concrete one-session history. -/
theorem model_votes_invariant_witness :
    demoSessions ≠ []
    ∧ ∀ m ∈ pipelineModels demoSessions (3/10),
        (m.prediction = 'T' ∨ m.prediction = 'X') ∧ 1/2 ≤ m.confidence ∧ m.confidence ≤ 1 :=
  ⟨by simp [demoSessions], model_votes_invariant demoSessions (by simp [demoSessions]) (3/10)⟩

/-- Claim C6. For well-formed votes the final prediction is TAI exactly
when the confidence-weighted T votes strictly exceed the X votes (an
exact tie gives XIU), and the final confidence percentage is
max(votes.T, votes.X) / total_weight * 100 rounded to two decimals, where
the accumulators range over the five model votes and the five synthetic
voters. -/
theorem ensemble_vote_aggregation (models : List ModelVote) (randSrc : Nat → ℚ × ℚ)
    (h : ∀ m ∈ models, m.prediction = 'T' ∨ m.prediction = 'X') :
    let allVotes := models ++ syntheticVotes randSrc
    let vT := ((allVotes.filter (fun m => m.prediction = 'T')).map (fun m => m.confidence)).sum
    let vX := ((allVotes.filter (fun m => m.prediction = 'X')).map (fun m => m.confidence)).sum
    let tw := (allVotes.map (fun m => m.confidence)).sum
    ((ensemblePrediction models randSrc).du_doan = "TAI" ↔ vT > vX)
    ∧ ((ensemblePrediction models randSrc).du_doan = "XIU" ↔ ¬ vT > vX)
    ∧ ensembleConfVal models randSrc = round2 (max vT vX / tw * 100) := by
  have ht := tallyVotes_eq (models ++ syntheticVotes randSrc)
  dsimp only
  unfold ensemblePrediction ensembleConfVal ensembleVotes
  dsimp only
  rw [ht]
  dsimp only
  split_ifs with hv
  · exact ⟨iff_of_true rfl hv, iff_of_false (by decide) (not_not_intro hv), rfl⟩
  · exact ⟨iff_of_false (by decide) hv, iff_of_true rfl hv, rfl⟩

/-- Witness for C6 on two concrete votes and a fixed random stream. -/
theorem ensemble_vote_aggregation_witness :
    (∀ m ∈ demoVotes, m.prediction = 'T' ∨ m.prediction = 'X')
    ∧ (let allVotes := demoVotes ++ syntheticVotes demoSrc
      let vT := ((allVotes.filter (fun m => m.prediction = 'T')).map (fun m => m.confidence)).sum
      let vX := ((allVotes.filter (fun m => m.prediction = 'X')).map (fun m => m.confidence)).sum
      let tw := (allVotes.map (fun m => m.confidence)).sum
      ((ensemblePrediction demoVotes demoSrc).du_doan = "TAI" ↔ vT > vX)
      ∧ ((ensemblePrediction demoVotes demoSrc).du_doan = "XIU" ↔ ¬ vT > vX)
      ∧ ensembleConfVal demoVotes demoSrc = round2 (max vT vX / tw * 100)) :=
  ⟨by decide, ensemble_vote_aggregation demoVotes demoSrc (by decide)⟩

/-- Claim C2. On any nonempty history and any random draws (with the
synthetic confidence draws at or above zero, as Math.random guarantees)
the handler terminates with a success value whose prediction is TAI or
XIU, and the numeric final confidence percentage lies between 0 and 100;
every division hazard inside the models is covered by the invariants
proved above, so no model fails. -/
theorem predict_total_and_bounded (sessions : List Session) (h : sessions ≠ []) (rand : ℚ)
    (randSrc : Nat → ℚ × ℚ) (hr : ∀ i, 0 ≤ (randSrc i).2) :
    (∃ out : Output, predictHandler sessions rand randSrc = Except.ok out
      ∧ (out.du_doan = "TAI" ∨ out.du_doan = "XIU")
      ∧ out.do_tin_cay
          = ratToFixed2 (ensembleConfVal (pipelineModels (sortByIdDesc sessions) rand) randSrc) ++ "%")
    ∧ 0 ≤ ensembleConfVal (pipelineModels (sortByIdDesc sessions) rand) randSrc
    ∧ ensembleConfVal (pipelineModels (sortByIdDesc sessions) rand) randSrc ≤ 100 := by
  have hlen : ¬ (sortByIdDesc sessions).length = 0 := by
    rw [sortByIdDesc_length]
    intro h0
    exact h (List.eq_nil_of_length_eq_zero h0)
  refine ⟨?_, (ensembleConfVal_bounds _ rand randSrc hr).1,
    (ensembleConfVal_bounds _ rand randSrc hr).2⟩
  cases hok : predictHandler sessions rand randSrc with
  | error e =>
    unfold predictHandler at hok
    dsimp only at hok
    rw [if_neg hlen] at hok
    exact absurd hok (by simp)
  | ok out =>
    unfold predictHandler at hok
    dsimp only at hok
    rw [if_neg hlen] at hok
    injection hok with hout
    refine ⟨out, rfl, ?_, ?_⟩
    · rw [← hout]
      exact ensemble_du_doan_cases _ _
    · rw [← hout]
      rfl

/-- Witness for C2 at a concrete one-session history and fixed draws. -/
theorem predict_total_and_bounded_witness :
    demoSessions ≠ []
    ∧ ((∃ out : Output, predictHandler demoSessions (3/10) demoSrc = Except.ok out
        ∧ (out.du_doan = "TAI" ∨ out.du_doan = "XIU")
        ∧ out.do_tin_cay
            = ratToFixed2 (ensembleConfVal (pipelineModels (sortByIdDesc demoSessions) (3/10)) demoSrc) ++ "%")
      ∧ 0 ≤ ensembleConfVal (pipelineModels (sortByIdDesc demoSessions) (3/10)) demoSrc
      ∧ ensembleConfVal (pipelineModels (sortByIdDesc demoSessions) (3/10)) demoSrc ≤ 100) :=
  ⟨by simp [demoSessions],
   predict_total_and_bounded demoSessions (by simp [demoSessions]) (3/10) demoSrc
     (fun i => by norm_num [demoSrc])⟩
